import Mathlib

/-
  Verification of the CampuSysV2 service worker (offline cache gateway).

  Shallow embedding of the service worker logic: the two cache tiers are
  association lists from URL keys to stored responses, the network is a
  function from requests to a success-or-rejection result, and each event
  handler (install, activate, fetch, sync, notificationclick) becomes a pure
  Lean function on explicit state.
-/

set_option autoImplicit false

namespace CampuSys

/-- An HTTP response as observed by the service worker: status code, reason
phrase, response type (`"basic"` for same-origin, `"cors"` / `"opaque"` for
cross-origin), and body bytes. -/
structure Response where
  status : Nat
  statusText : String
  rtype : String
  body : String
deriving DecidableEq

/-- An intercepted request: its absolute URL and its destination
(`"document"` for navigations, other strings for subresources). -/
structure Request where
  url : String
  destination : String
deriving DecidableEq

/-- The outcome of a network fetch: it either resolves with a response or
rejects (offline, DNS failure, timeout). -/
inductive NetworkResult where
  | ok (r : Response)
  | reject
deriving DecidableEq

/-- A cache tier: a key-value store from URL strings to stored responses.
`put` prepends, `match` takes the first hit, so later writes shadow earlier
ones, matching the replace-wholesale semantics of the platform cache. -/
abbrev Cache := List (String × Response)

/-- Platform `cache.match`: first stored response for the key, if any. -/
def cacheMatch : Cache → String → Option Response
  | [], _ => none
  | (k, r) :: rest, u => if k = u then some r else cacheMatch rest u

/-- Platform `cache.put`: store a response under a key, shadowing any
previous entry for that key. -/
def cachePut (c : Cache) (k : String) (r : Response) : Cache :=
  (k, r) :: c

/-- JS `String.prototype.includes`: substring containment. -/
def containsSub (haystack needle : String) : Bool :=
  haystack.toList.tails.any fun t => needle.toList.isPrefixOf t

/-- `const CACHE_NAME = 'campusysv2-v1.0.0'` — the Static Tier name. -/
def CACHE_NAME : String := "campusysv2-v1.0.0"

/-- `const DATA_CACHE_NAME = 'campusysv2-data-v1.0.0'` — the Data Tier name. -/
def DATA_CACHE_NAME : String := "campusysv2-data-v1.0.0"

/-- `FILES_TO_CACHE` — the Static Asset Manifest, verbatim from the source. -/
def FILES_TO_CACHE : List String :=
  [ "/",
    "/index.html",
    "/login.html",
    "/registration.html",
    "/resources.html",
    "/account.html",
    "/notification.html",
    "/styles.css",
    "/css/login.css",
    "/css/analytics.css",
    "/JavaScript/security.js",
    "/JavaScript/auth.js",
    "/JavaScript/analytics.js",
    "/JavaScript/workflow.js",
    "/JavaScript/resource-manager.js",
    "/JavaScript/two-factor-auth.js",
    "/JavaScript/homepage.js",
    "/JavaScript/resources.js",
    "/JavaScript/account.js",
    "/JavaScript/notification.js",
    "/res/material.cyan-light_blue.min.css",
    "/images/user.jpg",
    "/images/android-desktop.png",
    "/images/ios-desktop.png",
    "/images/favicon.png",
    "/manifest.json" ]

/-- `API_CACHE_URLS` — the allow-listed external origin prefixes, verbatim
from the source. -/
def API_CACHE_URLS : List String :=
  [ "https://www.gstatic.com/firebasejs/",
    "https://fonts.googleapis.com/",
    "https://fonts.gstatic.com/",
    "https://cdn.jsdelivr.net/npm/chart.js",
    "https://cdn.jsdelivr.net/npm/sweetalert2@11",
    "https://code.getmdl.io/1.3.0/material.min.js" ]

/-- The synthesized offline response from the static-path catch branch:
`new Response('Offline', { status: 503, statusText: 'Service Unavailable' })`. -/
def offlineResponse : Response :=
  { status := 503, statusText := "Service Unavailable", rtype := "basic",
    body := "Offline" }

/-- The cacheability test of the static branch:
`FILES_TO_CACHE.some(url => evt.request.url.includes(url)) ||
 API_CACHE_URLS.some(url => evt.request.url.includes(url))`. -/
def shouldCache (requestUrl : String) : Bool :=
  (FILES_TO_CACHE.any fun u => containsSub requestUrl u) ||
  (API_CACHE_URLS.any fun u => containsSub requestUrl u)

/-- Everything the fetch handler produces: the response the event resolves
with (`none` models resolving with `undefined`), the two cache tiers after
the handling, and whether a network fetch was issued. -/
structure FetchOutcome where
  response : Option Response
  staticCache : Cache
  dataCache : Cache
  networkUsed : Bool
deriving DecidableEq

/-- The fetch event listener. API branch: requests whose URL contains
`'/api/'` go network-first into the Data Tier (a 200 response is stored
keyed by `evt.request.url`; on rejection the cache is consulted). Static
branch: cache-first on the Static Tier; on a miss the network response is
passed through, and stored when it has status 200, type `"basic"` and
`shouldCache` holds; on network rejection a document navigation gets
`cache.match('/index.html')` and anything else the synthesized 503.
(A resolved platform fetch always yields a response object, so the
`!response` guard of the source is vacuously false here.) -/
def handleFetch (net : Request → NetworkResult) (req : Request)
    (sc dc : Cache) : FetchOutcome :=
  if containsSub req.url "/api/" then
    match net req with
    | .ok response =>
        if response.status = 200 then
          { response := some response, staticCache := sc,
            dataCache := cachePut dc req.url response, networkUsed := true }
        else
          { response := some response, staticCache := sc, dataCache := dc,
            networkUsed := true }
    | .reject =>
        { response := cacheMatch dc req.url, staticCache := sc,
          dataCache := dc, networkUsed := true }
  else
    match cacheMatch sc req.url with
    | some response =>
        { response := some response, staticCache := sc, dataCache := dc,
          networkUsed := false }
    | none =>
        match net req with
        | .ok response =>
            if response.status ≠ 200 ∨ response.rtype ≠ "basic" then
              { response := some response, staticCache := sc, dataCache := dc,
                networkUsed := true }
            else if shouldCache req.url then
              { response := some response,
                staticCache := cachePut sc req.url response, dataCache := dc,
                networkUsed := true }
            else
              { response := some response, staticCache := sc, dataCache := dc,
                networkUsed := true }
        | .reject =>
            if req.destination = "document" then
              { response := cacheMatch sc "/index.html", staticCache := sc,
                dataCache := dc, networkUsed := true }
            else
              { response := some offlineResponse, staticCache := sc,
                dataCache := dc, networkUsed := true }

/-- Platform `cache.addAll`: fetch every URL and store all of them, rejecting
the whole operation if any fetch rejects or yields a non-ok (outside
200..299) response; nothing is stored on failure (batch semantics). -/
def addAll (net : String → NetworkResult) (c : Cache) :
    List String → Option Cache
  | [] => some c
  | u :: rest =>
    match net u with
    | .ok r =>
        if 200 ≤ r.status ∧ r.status ≤ 299 then
          addAll net (cachePut c u r) rest
        else none
    | .reject => none

/-- The install event listener: open the Static Tier and
`cache.addAll(FILES_TO_CACHE)`; `none` models a failed install (the
version does not become ready). -/
def installStep (net : String → NetworkResult) : Option Cache :=
  addAll net [] FILES_TO_CACHE

/-- The activate event listener: every existing cache name other than
`CACHE_NAME` and `DATA_CACHE_NAME` is deleted; the result is the list of
cache names that survive. -/
def activateStep (keyList : List String) : List String :=
  keyList.filter fun key => key == CACHE_NAME || key == DATA_CACHE_NAME

/-- A queued Outbox Item: `{url, method, headers, body}` (headers folded into
the opaque body for the model; they do not influence control flow). -/
structure OutboxItem where
  url : String
  method : String
  body : String
deriving DecidableEq

/-- `syncDataItem`: replay one outbox item over the network; returns `true`
when the replay returned normally and `false` when it threw (the fetch
rejected, or `!response.ok`, i.e. status outside 200..299). -/
def syncDataItem (net : OutboxItem → NetworkResult) (item : OutboxItem) :
    Bool :=
  match net item with
  | .ok r => decide (200 ≤ r.status ∧ r.status ≤ 299)
  | .reject => false

/-- The `for (const item of offlineData) await syncDataItem(item)` loop:
returns how many items were replayed successfully and whether the whole
loop completed (a throwing item aborts the remaining iterations). -/
def replayAll (net : OutboxItem → NetworkResult) :
    List OutboxItem → Nat × Bool
  | [] => (0, true)
  | item :: rest =>
    if syncDataItem net item then
      let p := replayAll net rest
      (p.1 + 1, p.2)
    else (0, false)

/-- Observable outcome of one `backgroundSync()` call: how many items were
replayed, whether `clearOfflineData` ran, and whether the promise returned
to `evt.waitUntil` rejected. -/
structure SyncResult where
  replayed : Nat
  cleared : Bool
  rejectedOut : Bool
deriving DecidableEq

/-- `backgroundSync()`: the queued items (the source's `getOfflineData` stub
always yields `[]`; the queue is a parameter here so the non-empty case is
expressible) are replayed in order; on full success the outbox is cleared.
The whole body sits in `try { ... } catch (error) { console.error(...) }`,
so a replay failure is caught and logged and the returned promise still
resolves: `rejectedOut` is `false` on every path. -/
def backgroundSync (net : OutboxItem → NetworkResult)
    (offlineData : List OutboxItem) : SyncResult :=
  if offlineData.length > 0 then
    let p := replayAll net offlineData
    if p.2 then
      { replayed := p.1, cleared := true, rejectedOut := false }
    else
      { replayed := p.1, cleared := false, rejectedOut := false }
  else
    { replayed := 0, cleared := false, rejectedOut := false }

/-- Observable effect of the notificationclick handler: whether the
notification was closed, whether an existing client window was focused,
and the URL passed to `clients.openWindow`, if any. -/
structure ClickEffect where
  closedNotification : Bool
  focusedExisting : Bool
  openedWindow : Option String
deriving DecidableEq

/-- The notificationclick event listener. `origin` is
`self.location.origin`; `clientUrls` are the URLs of the open window
clients. On `"view"`: focus the first client whose URL equals the origin,
else `openWindow('/')`. On `"dismiss"`: nothing beyond closing. Any other
action (the empty string models a body click): `clients.openWindow('/')`
unconditionally. -/
def notificationClick (origin action : String) (clientUrls : List String) :
    ClickEffect :=
  if action = "view" then
    if clientUrls.any fun u => u == origin then
      { closedNotification := true, focusedExisting := true,
        openedWindow := none }
    else
      { closedNotification := true, focusedExisting := false,
        openedWindow := some "/" }
  else if action = "dismiss" then
    { closedNotification := true, focusedExisting := false,
      openedWindow := none }
  else
    { closedNotification := true, focusedExisting := false,
      openedWindow := some "/" }

/-- Modelled from the spec (for comparison with the source's `shouldCache`):
"the request URL must match either an entry in the Static Asset Manifest or
an Allow-listed External Origin prefix" — membership in `FILES_TO_CACHE`,
or having an element of `API_CACHE_URLS` as a prefix. -/
def specCacheable (requestUrl : String) : Bool :=
  FILES_TO_CACHE.contains requestUrl ||
  (API_CACHE_URLS.any fun p => p.toList.isPrefixOf requestUrl.toList)

end CampuSys


namespace CampuSys

/-! ## Helper lemmas about the cache store -/

/-- A `cachePut` is immediately visible to `cacheMatch` on the same key. -/
theorem cacheMatch_put_self (c : Cache) (k : String) (r : Response) :
    cacheMatch (cachePut c k r) k = some r := by
  simp [cachePut, cacheMatch]

/-- `cachePut` never removes an existing entry. -/
theorem cacheMatch_put_isSome (c : Cache) (k u : String) (r : Response)
    (h : (cacheMatch c u).isSome = true) :
    (cacheMatch (cachePut c k r) u).isSome = true := by
  by_cases hk : k = u <;> simp [cachePut, cacheMatch, hk, h]

/-- `addAll` fails outright when the fetch of any listed URL rejects. -/
theorem addAll_eq_none_of_reject (net : String → NetworkResult) :
    ∀ (urls : List String) (c : Cache) (u : String),
      u ∈ urls → net u = NetworkResult.reject → addAll net c urls = none := by
  intro urls
  induction urls with
  | nil => intro c u hu _; simp at hu
  | cons a rest ih =>
    intro c u hu hrej
    rcases List.mem_cons.mp hu with h | h
    · subst h; simp [addAll, hrej]
    · cases hna : net a with
      | ok r =>
        by_cases hok : 200 ≤ r.status ∧ r.status ≤ 299
        · simpa [addAll, hna, hok] using ih (cachePut c a r) u h hrej
        · simp [addAll, hna, hok]
      | reject => simp [addAll, hna]

/-- Entries present before an `addAll` that succeeds are still present
afterwards. -/
theorem addAll_mono (net : String → NetworkResult) :
    ∀ (urls : List String) (c c' : Cache), addAll net c urls = some c' →
      ∀ u, (cacheMatch c u).isSome = true → (cacheMatch c' u).isSome = true := by
  intro urls
  induction urls with
  | nil =>
    intro c c' h u hu
    simp [addAll] at h
    subst h; exact hu
  | cons a rest ih =>
    intro c c' h u hu
    cases hna : net a with
    | ok r =>
      by_cases hok : 200 ≤ r.status ∧ r.status ≤ 299
      · simp [addAll, hna, hok] at h
        exact ih (cachePut c a r) c' h u (cacheMatch_put_isSome c a u r hu)
      · simp [addAll, hna, hok] at h
    | reject => simp [addAll, hna] at h

/-- Every listed URL has an entry in the cache a successful `addAll`
produces. -/
theorem addAll_mem_isSome (net : String → NetworkResult) :
    ∀ (urls : List String) (c c' : Cache), addAll net c urls = some c' →
      ∀ u, u ∈ urls → (cacheMatch c' u).isSome = true := by
  intro urls
  induction urls with
  | nil => intro c c' _ u hu; simp at hu
  | cons a rest ih =>
    intro c c' h u hu
    cases hna : net a with
    | ok r =>
      by_cases hok : 200 ≤ r.status ∧ r.status ≤ 299
      · simp [addAll, hna, hok] at h
        rcases List.mem_cons.mp hu with hh | hh
        · subst hh
          exact addAll_mono net rest _ _ h u (by simp [cachePut, cacheMatch])
        · exact ih _ _ h u hh
      · simp [addAll, hna, hok] at h
    | reject => simp [addAll, hna] at h

/-! ## Claim theorems -/

/-- Claim C1: for a request whose URL contains `'/api/'`, a network fetch
resolving with status 200 is returned to the caller and stored in the Data
Tier keyed by the request URL; a subsequent fetch of the same URL whose
network request rejects returns the stored response. -/
theorem C1_api_network_first (net1 net2 : Request → NetworkResult)
    (req : Request) (sc dc : Cache) (r : Response)
    (hapi : containsSub req.url "/api/" = true)
    (h1 : net1 req = NetworkResult.ok r) (h200 : r.status = 200)
    (h2 : net2 req = NetworkResult.reject) :
    (handleFetch net1 req sc dc).response = some r ∧
    cacheMatch (handleFetch net1 req sc dc).dataCache req.url = some r ∧
    (handleFetch net2 req sc
      ((handleFetch net1 req sc dc).dataCache)).response = some r := by
  simp [handleFetch, hapi, h1, h2, h200, cacheMatch_put_self]

/-- Witness for C1: the scenario at `/api/v1/ping`. -/
theorem C1_api_network_first_witness :
    (handleFetch (fun _ => NetworkResult.ok
        { status := 200, statusText := "OK", rtype := "basic", body := "ok" })
      { url := "https://campusysv2.example/api/v1/ping", destination := "" }
      [] []).response = some
        { status := 200, statusText := "OK", rtype := "basic", body := "ok" } ∧
    cacheMatch
      (handleFetch (fun _ => NetworkResult.ok
          { status := 200, statusText := "OK", rtype := "basic", body := "ok" })
        { url := "https://campusysv2.example/api/v1/ping", destination := "" }
        [] []).dataCache
      "https://campusysv2.example/api/v1/ping" = some
        { status := 200, statusText := "OK", rtype := "basic", body := "ok" } ∧
    (handleFetch (fun _ => NetworkResult.reject)
      { url := "https://campusysv2.example/api/v1/ping", destination := "" }
      []
      ((handleFetch (fun _ => NetworkResult.ok
          { status := 200, statusText := "OK", rtype := "basic", body := "ok" })
        { url := "https://campusysv2.example/api/v1/ping", destination := "" }
        [] []).dataCache)).response = some
        { status := 200, statusText := "OK", rtype := "basic", body := "ok" } :=
  C1_api_network_first
    (fun _ => NetworkResult.ok
      { status := 200, statusText := "OK", rtype := "basic", body := "ok" })
    (fun _ => NetworkResult.reject)
    { url := "https://campusysv2.example/api/v1/ping", destination := "" }
    [] []
    { status := 200, statusText := "OK", rtype := "basic", body := "ok" }
    (by decide) rfl rfl rfl

/-- Claim C2: a non-API request already stored in the Static Tier is
answered from the cache, with the stored response returned unchanged and no
network fetch issued. -/
theorem C2_static_cache_first (net : Request → NetworkResult) (req : Request)
    (sc dc : Cache) (r : Response)
    (hnapi : containsSub req.url "/api/" = false)
    (hhit : cacheMatch sc req.url = some r) :
    (handleFetch net req sc dc).response = some r ∧
    (handleFetch net req sc dc).networkUsed = false := by
  simp [handleFetch, hnapi, hhit]

/-- Witness for C2: `/styles.css` served from a pre-filled Static Tier. -/
theorem C2_static_cache_first_witness :
    (handleFetch (fun _ => NetworkResult.reject)
      { url := "https://campusysv2.example/styles.css", destination := "style" }
      [("https://campusysv2.example/styles.css",
        { status := 200, statusText := "OK", rtype := "basic", body := "css" })]
      []).response = some
        { status := 200, statusText := "OK", rtype := "basic", body := "css" } ∧
    (handleFetch (fun _ => NetworkResult.reject)
      { url := "https://campusysv2.example/styles.css", destination := "style" }
      [("https://campusysv2.example/styles.css",
        { status := 200, statusText := "OK", rtype := "basic", body := "css" })]
      []).networkUsed = false :=
  C2_static_cache_first (fun _ => NetworkResult.reject)
    { url := "https://campusysv2.example/styles.css", destination := "style" }
    [("https://campusysv2.example/styles.css",
      { status := 200, statusText := "OK", rtype := "basic", body := "css" })]
    []
    { status := 200, statusText := "OK", rtype := "basic", body := "css" }
    (by decide) (by decide)

/-- Claim C5: after activation, a cache name survives exactly when it
existed before and equals the current Static Tier name or the current Data
Tier name. -/
theorem C5_version_eviction (keyList : List String) (key : String) :
    key ∈ activateStep keyList ↔
      key ∈ keyList ∧ (key = CACHE_NAME ∨ key = DATA_CACHE_NAME) := by
  simp [activateStep, List.mem_filter]

/-- Claim C6: the install step is all-or-nothing — if fetching any manifest
URL rejects, install fails; and a successful install has every manifest URL
stored. -/
theorem C6_install_all_or_nothing (net : String → NetworkResult) :
    ((∃ u, u ∈ FILES_TO_CACHE ∧ net u = NetworkResult.reject) →
      installStep net = none) ∧
    (∀ c, installStep net = some c →
      ∀ u, u ∈ FILES_TO_CACHE → (cacheMatch c u).isSome = true) := by
  constructor
  · rintro ⟨u, hu, hrej⟩
    exact addAll_eq_none_of_reject net FILES_TO_CACHE [] u hu hrej
  · intro c h u hu
    exact addAll_mem_isSome net FILES_TO_CACHE [] c h u hu

/-- Witness for C6: a fully offline install fails. -/
theorem C6_install_all_or_nothing_witness :
    installStep (fun _ => NetworkResult.reject) = none :=
  (C6_install_all_or_nothing (fun _ => NetworkResult.reject)).1
    ⟨"/", by decide, rfl⟩


/-- Claim C3, counterexample: `/random/unlisted.png` neither is an entry of
the Static Asset Manifest nor has an allow-listed external origin prefix,
yet its 200 `"basic"` network response is stored into the Static Tier —
because the source tests with `String.includes` and the manifest entry
`"/"` is a substring of every absolute URL. -/
theorem C3_counterexample :
    specCacheable "https://campusysv2.example/random/unlisted.png" = false ∧
    cacheMatch
      (handleFetch
        (fun _ => NetworkResult.ok
          { status := 200, statusText := "OK", rtype := "basic",
            body := "PNG" })
        { url := "https://campusysv2.example/random/unlisted.png",
          destination := "image" }
        [] []).staticCache
      "https://campusysv2.example/random/unlisted.png"
      = some
        { status := 200, statusText := "OK", rtype := "basic",
          body := "PNG" } := by
  decide

/-- Claim C3, amended: on the static path a 200 `"basic"` response is stored
into the Static Tier exactly when `shouldCache` holds — i.e. when the
request URL contains a manifest entry or an allow-list entry as a
substring — and since `"/"` is a manifest entry, every URL containing a
slash is cacheable. -/
theorem C3_amended_substring_caching (net : Request → NetworkResult)
    (req : Request) (sc dc : Cache) (r : Response)
    (hnapi : containsSub req.url "/api/" = false)
    (hmiss : cacheMatch sc req.url = none)
    (hok : net req = NetworkResult.ok r)
    (h200 : r.status = 200) (hbasic : r.rtype = "basic") :
    ((handleFetch net req sc dc).staticCache =
      if shouldCache req.url then cachePut sc req.url r else sc) ∧
    (handleFetch net req sc dc).response = some r ∧
    (containsSub req.url "/" = true → shouldCache req.url = true) := by
  have h3 : containsSub req.url "/" = true → shouldCache req.url = true := by
    intro hslash
    have hA : (FILES_TO_CACHE.any fun u => containsSub req.url u) = true :=
      List.any_eq_true.mpr ⟨"/", by decide, hslash⟩
    simp [shouldCache, hA]
  refine ⟨?_, ?_, h3⟩ <;>
    cases hsc : shouldCache req.url <;>
      simp [handleFetch, hnapi, hmiss, hok, h200, hbasic, hsc]

/-- Witness for C3 (amended): a 200 `"basic"` response for an unlisted URL
is nonetheless stored, the URL containing `"/"`. -/
theorem C3_amended_substring_caching_witness :
    ((handleFetch
      (fun _ => NetworkResult.ok
        { status := 200, statusText := "OK", rtype := "basic", body := "PNG" })
      { url := "https://campusysv2.example/random/unlisted.png",
        destination := "image" }
      [] []).staticCache =
      if shouldCache "https://campusysv2.example/random/unlisted.png" then
        cachePut [] "https://campusysv2.example/random/unlisted.png"
          { status := 200, statusText := "OK", rtype := "basic", body := "PNG" }
      else []) ∧
    (handleFetch
      (fun _ => NetworkResult.ok
        { status := 200, statusText := "OK", rtype := "basic", body := "PNG" })
      { url := "https://campusysv2.example/random/unlisted.png",
        destination := "image" }
      [] []).response = some
      { status := 200, statusText := "OK", rtype := "basic", body := "PNG" } ∧
    (containsSub "https://campusysv2.example/random/unlisted.png" "/" = true →
      shouldCache "https://campusysv2.example/random/unlisted.png" = true) :=
  C3_amended_substring_caching
    (fun _ => NetworkResult.ok
      { status := 200, statusText := "OK", rtype := "basic", body := "PNG" })
    { url := "https://campusysv2.example/random/unlisted.png",
      destination := "image" }
    [] []
    { status := 200, statusText := "OK", rtype := "basic", body := "PNG" }
    (by decide) rfl rfl rfl rfl

/-- Claim C4, counterexample: the API branch guards only on status, so a
status-200 response of cross-origin type `"cors"` (not the same-origin
`"basic"` type) is written into the Data Tier. -/
theorem C4_counterexample :
    ("cors" : String) ≠ "basic" ∧
    cacheMatch
      (handleFetch
        (fun _ => NetworkResult.ok
          { status := 200, statusText := "OK", rtype := "cors", body := "{}" })
        { url := "https://campusysv2.example/api/v1/data", destination := "" }
        [] []).dataCache
      "https://campusysv2.example/api/v1/data"
      = some
        { status := 200, statusText := "OK", rtype := "cors",
          body := "{}" } := by
  decide

/-- Claim C4, amended: a non-200 response is never written into either tier
on either path and is passed through; on the static path a response whose
type is not `"basic"` is additionally never written; the API branch checks
only the status, not the type. -/
theorem C4_amended_no_poisoning (net : Request → NetworkResult)
    (req : Request) (sc dc : Cache) (r : Response) :
    (containsSub req.url "/api/" = false →
      cacheMatch sc req.url = none →
      net req = NetworkResult.ok r →
      (r.status ≠ 200 ∨ r.rtype ≠ "basic") →
      (handleFetch net req sc dc).response = some r ∧
      (handleFetch net req sc dc).staticCache = sc ∧
      (handleFetch net req sc dc).dataCache = dc) ∧
    (containsSub req.url "/api/" = true →
      net req = NetworkResult.ok r →
      r.status ≠ 200 →
      (handleFetch net req sc dc).response = some r ∧
      (handleFetch net req sc dc).staticCache = sc ∧
      (handleFetch net req sc dc).dataCache = dc) := by
  constructor
  · intro hnapi hmiss hok hbad
    rcases hbad with h | h <;> simp [handleFetch, hnapi, hmiss, hok, h]
  · intro hapi hok h200ne
    simp [handleFetch, hapi, hok, h200ne]

/-- Witness for C4 (amended): a 404 on the static path is passed through
and neither tier changes. -/
theorem C4_amended_no_poisoning_witness :
    (handleFetch
      (fun _ => NetworkResult.ok
        { status := 404, statusText := "Not Found", rtype := "basic",
          body := "missing" })
      { url := "https://campusysv2.example/random/unlisted.png",
        destination := "image" }
      [] []).response = some
        { status := 404, statusText := "Not Found", rtype := "basic",
          body := "missing" } ∧
    (handleFetch
      (fun _ => NetworkResult.ok
        { status := 404, statusText := "Not Found", rtype := "basic",
          body := "missing" })
      { url := "https://campusysv2.example/random/unlisted.png",
        destination := "image" }
      [] []).staticCache = [] ∧
    (handleFetch
      (fun _ => NetworkResult.ok
        { status := 404, statusText := "Not Found", rtype := "basic",
          body := "missing" })
      { url := "https://campusysv2.example/random/unlisted.png",
        destination := "image" }
      [] []).dataCache = [] :=
  (C4_amended_no_poisoning
    (fun _ => NetworkResult.ok
      { status := 404, statusText := "Not Found", rtype := "basic",
        body := "missing" })
    { url := "https://campusysv2.example/random/unlisted.png",
      destination := "image" }
    [] []
    { status := 404, statusText := "Not Found", rtype := "basic",
      body := "missing" }).1
    (by decide) rfl rfl (Or.inl (by decide))

/-- Claim C7: when the network rejects on the static path, a document
navigation is answered with the Static Tier entry for `'/index.html'`, and
any other request with the synthesized 503 whose reason phrase is
non-empty. -/
theorem C7_offline_fallback (net : Request → NetworkResult) (req : Request)
    (sc dc : Cache)
    (hnapi : containsSub req.url "/api/" = false)
    (hmiss : cacheMatch sc req.url = none)
    (hrej : net req = NetworkResult.reject) :
    (req.destination = "document" →
      (handleFetch net req sc dc).response = cacheMatch sc "/index.html") ∧
    (req.destination ≠ "document" →
      (handleFetch net req sc dc).response = some offlineResponse ∧
      offlineResponse.status = 503 ∧ offlineResponse.statusText ≠ "") := by
  constructor
  · intro hdoc
    simp [handleFetch, hnapi, hmiss, hrej, hdoc]
  · intro hnd
    refine ⟨?_, rfl, by decide⟩
    simp [handleFetch, hnapi, hmiss, hrej, hnd]

/-- Witness for C7: an offline deep-link navigation is served the cached
app shell. -/
theorem C7_offline_fallback_witness :
    (handleFetch (fun _ => NetworkResult.reject)
      { url := "https://campusysv2.example/some/deep/route",
        destination := "document" }
      [("/index.html",
        { status := 200, statusText := "OK", rtype := "basic",
          body := "shell" })]
      []).response =
      cacheMatch
        [("/index.html",
          { status := 200, statusText := "OK", rtype := "basic",
            body := "shell" })]
        "/index.html" :=
  (C7_offline_fallback (fun _ => NetworkResult.reject)
    { url := "https://campusysv2.example/some/deep/route",
      destination := "document" }
    [("/index.html",
      { status := 200, statusText := "OK", rtype := "basic",
        body := "shell" })]
    [] (by decide) (by decide) rfl).1 rfl

/-- Claim C8: the replay loop does abort at the first failing outbox item
and the outbox is not cleared, but the surrounding `try`/`catch` swallows
the failure — the promise handed to the platform never rejects, on any
network behavior and any queue, so the sync is never rescheduled. -/
theorem C8_sync_failure_swallowed :
    (backgroundSync (fun _ => NetworkResult.reject)
      [{ url := "/api/v1/submit", method := "POST", body := "payload" }] =
      { replayed := 0, cleared := false, rejectedOut := false }) ∧
    (∀ (net : OutboxItem → NetworkResult)
      (offlineData : List OutboxItem),
      (backgroundSync net offlineData).rejectedOut = false) := by
  constructor
  · decide
  · intro net offlineData
    by_cases h : offlineData.length > 0 <;>
      cases hp : (replayAll net offlineData).2 <;>
        simp [backgroundSync, h, hp]

/-- Claim C9, counterexample: with a window already open at the app origin,
a body click (empty action) opens a new window at `'/'` without focusing,
while `'view'` focuses the existing window and opens nothing — the default
branch does not behave like `'view'`. -/
theorem C9_counterexample :
    notificationClick "https://campusysv2.example" ""
      ["https://campusysv2.example"] ≠
    notificationClick "https://campusysv2.example" "view"
      ["https://campusysv2.example"] := by
  decide

/-- Claim C9, amended: on `'view'` the handler focuses an existing window
whose URL equals the app origin and opens `'/'` only if none exists; on
`'dismiss'` it does nothing beyond closing; on a body click (no action) it
unconditionally opens a new window at `'/'` without attempting to focus an
existing one. -/
theorem C9_amended_notification_routing (origin : String)
    (clientUrls : List String) :
    notificationClick origin "view" clientUrls =
      (if clientUrls.any fun u => u == origin then
        { closedNotification := true, focusedExisting := true,
          openedWindow := none }
      else
        { closedNotification := true, focusedExisting := false,
          openedWindow := some "/" }) ∧
    notificationClick origin "dismiss" clientUrls =
      { closedNotification := true, focusedExisting := false,
        openedWindow := none } ∧
    notificationClick origin "" clientUrls =
      { closedNotification := true, focusedExisting := false,
        openedWindow := some "/" } :=
  ⟨rfl, rfl, rfl⟩

/-- Claim C10: when the network rejects for a document navigation and the
Static Tier holds no `'/index.html'` entry, the fetch handler resolves with
no response at all rather than a synthesized 503. -/
theorem C10_missing_shell_resolves_none (net : Request → NetworkResult)
    (req : Request) (sc dc : Cache)
    (hnapi : containsSub req.url "/api/" = false)
    (hmiss : cacheMatch sc req.url = none)
    (hshell : cacheMatch sc "/index.html" = none)
    (hrej : net req = NetworkResult.reject)
    (hdoc : req.destination = "document") :
    (handleFetch net req sc dc).response = none := by
  simp [handleFetch, hnapi, hmiss, hrej, hdoc, hshell]

/-- Witness for C10: an offline navigation against empty tiers yields no
response. -/
theorem C10_missing_shell_resolves_none_witness :
    (handleFetch (fun _ => NetworkResult.reject)
      { url := "https://campusysv2.example/some/deep/route",
        destination := "document" }
      [] []).response = none :=
  C10_missing_shell_resolves_none (fun _ => NetworkResult.reject)
    { url := "https://campusysv2.example/some/deep/route",
      destination := "document" }
    [] [] (by decide) rfl rfl rfl rfl

end CampuSys
